import Mathlib

/-!
Verification development for the nnptr library (include/nnptr/sref.hpp):
a non-null pointer wrapper `NotNull<T>` and a shared non-null reference
`sref<T>` built on `NotNull<std::shared_ptr<T>>`.

Modelling choices (shallow embedding):
* A pointer-like value is any type with a decidable null sentinel
  (`NullSentinel`); concrete pointers and `shared_ptr` handles are heap
  addresses (`Addr := Nat`) whose null sentinel is address 0.
* `checked` mode is modelled directly: an operation that may call
  `std::terminate()` returns `CResult A` (`terminated` or `ok a`); the type
  has no error-code or exception alternative, matching the fail-fast
  contract.  Operations that additionally dereference a `shared_ptr`
  return `SResult A`, whose extra `ub` value marks the undefined
  behaviour of dereferencing a dangling handle (never reached under the
  non-null/alive invariant).
* Shared ownership is a heap of reference-counted cells
  (`Heap V := List (Addr × Cell V)` with first-match lookup): copying a
  `shared_ptr` increments the count of its cell, destroying one decrements
  it, and the cell is removed when the last share disappears.
-/

namespace Nnptr

/-- Outcome of a checked-mode operation: the process either terminates
(`std::terminate()`) or the operation yields a value.  There is no
exception or error-code alternative. -/
inductive CResult (A : Type) where
  | terminated : CResult A
  | ok : A → CResult A
deriving DecidableEq

/-- Outcome of an operation that both runs NotNull checks and dereferences a
`shared_ptr`: `ub` is the undefined behaviour of dereferencing a handle
whose storage is gone (unreachable under the library invariant). -/
inductive SResult (A : Type) where
  | terminated : SResult A
  | ub : SResult A
  | ok : A → SResult A
deriving DecidableEq

/-- A pointer-like type: supports comparison against its null sentinel
(`ptr == nullptr` in the source, `details::is_comparable_to_nullptr`). -/
class NullSentinel (T : Type) where
  isNull : T → Bool

/-- Heap addresses stand in for raw pointers and `shared_ptr` handles. -/
abbrev Addr := Nat

/-- Address 0 is the null sentinel for pointers. -/
instance : NullSentinel Addr := ⟨fun a => a == 0⟩

/-- `nnptr::NotNull<T>` (sref.hpp lines 79-140): holds exactly one payload
of the pointer-like type `T`. -/
structure NotNull (T : Type) where
  ptr_ : T
deriving DecidableEq

namespace NotNull

variable {T U : Type} [NullSentinel T] [NullSentinel U]

/-- Constructor `NotNull(T u)` in checked mode (lines 95-103): stores the
value, then terminates if the stored payload compares equal to null. -/
def mk_checked (u : T) : CResult (NotNull T) :=
  if NullSentinel.isNull u then .terminated else .ok ⟨u⟩

/-- Converting constructor `template<U> NotNull(U&& u)` (lines 85-93):
stores the converted value (the conversion `U -> T` is passed explicitly),
then terminates if the stored payload compares equal to null. -/
def constructFrom (conv : U → T) (u : U) : CResult (NotNull T) :=
  let p := conv u
  if NullSentinel.isNull p then .terminated else .ok ⟨p⟩

/-- `get()` in checked mode (lines 112-119): re-validates the payload
against the null sentinel on every call, then returns it. -/
def get_checked (n : NotNull T) : CResult T :=
  if NullSentinel.isNull n.ptr_ then .terminated else .ok n.ptr_

/-- Implicit conversion `operator T()` (line 121): defined as `get()`. -/
def opT (n : NotNull T) : CResult T :=
  n.get_checked

/-- Constructor `template<U> NotNull(const NotNull<U>& other)`
(lines 105-108): delegates to the converting constructor on `other.get()`. -/
def fromWrapper (conv : U → T) (other : NotNull U) : CResult (NotNull T) :=
  match other.get_checked with
  | .terminated => .terminated
  | .ok u => constructFrom conv u

/-- Defaulted copy constructor `NotNull(const NotNull&)` (line 110):
memberwise copy of the payload, no re-validation. -/
def copyCtor (other : NotNull T) : NotNull T :=
  ⟨other.ptr_⟩

/-- Defaulted copy assignment `operator=(const NotNull&)` (line 111): the
target's payload is replaced by the source's payload, no re-validation;
the result is the post-assignment value of the target. -/
def assignFrom (_tgt other : NotNull T) : NotNull T :=
  ⟨other.ptr_⟩

/-- `operator==(NotNull<T>, NotNull<U>)` (lines 150-157): delegates the
payload comparison `opEq` to `lhs.get() == rhs.get()`. -/
def nnEq (opEq : T → U → Bool) (lhs : NotNull T) (rhs : NotNull U) : CResult Bool :=
  match lhs.get_checked, rhs.get_checked with
  | .ok a, .ok b => .ok (opEq a b)
  | _, _ => .terminated

/-- `operator!=(NotNull<T>, NotNull<U>)` (lines 163-170): delegates to
`lhs.get() != rhs.get()`. -/
def nnNe (opNe : T → U → Bool) (lhs : NotNull T) (rhs : NotNull U) : CResult Bool :=
  match lhs.get_checked, rhs.get_checked with
  | .ok a, .ok b => .ok (opNe a b)
  | _, _ => .terminated

/-- `operator<(NotNull<T>, NotNull<U>)` (lines 176-183): delegates to
`lhs.get() < rhs.get()`. -/
def nnLt (opLt : T → U → Bool) (lhs : NotNull T) (rhs : NotNull U) : CResult Bool :=
  match lhs.get_checked, rhs.get_checked with
  | .ok a, .ok b => .ok (opLt a b)
  | _, _ => .terminated

/-- `operator<=(NotNull<T>, NotNull<U>)` (lines 185-192): delegates to
`lhs.get() <= rhs.get()`. -/
def nnLe (opLe : T → U → Bool) (lhs : NotNull T) (rhs : NotNull U) : CResult Bool :=
  match lhs.get_checked, rhs.get_checked with
  | .ok a, .ok b => .ok (opLe a b)
  | _, _ => .terminated

/-- `operator>(NotNull<T>, NotNull<U>)` (lines 194-201): delegates to
`lhs.get() > rhs.get()`. -/
def nnGt (opGt : T → U → Bool) (lhs : NotNull T) (rhs : NotNull U) : CResult Bool :=
  match lhs.get_checked, rhs.get_checked with
  | .ok a, .ok b => .ok (opGt a b)
  | _, _ => .terminated

/-- `operator>=(NotNull<T>, NotNull<U>)` (lines 203-210): delegates to
`lhs.get() >= rhs.get()`. -/
def nnGe (opGe : T → U → Bool) (lhs : NotNull T) (rhs : NotNull U) : CResult Bool :=
  match lhs.get_checked, rhs.get_checked with
  | .ok a, .ok b => .ok (opGe a b)
  | _, _ => .terminated

end NotNull

/-- The wrappers producible through NotNull's public contract in checked
mode: each non-deleted constructor whose check passed, copies and
copy-assignments of such wrappers. -/
inductive Reachable : {T : Type} → [NullSentinel T] → NotNull T → Prop where
  | mkOk {T : Type} [NullSentinel T] (u : T) (w : NotNull T) :
      NotNull.mk_checked u = .ok w → Reachable w
  | convOk {T U : Type} [NullSentinel T] [NullSentinel U]
      (conv : U → T) (u : U) (w : NotNull T) :
      NotNull.constructFrom conv u = .ok w → Reachable w
  | wrapOk {T U : Type} [NullSentinel T] [NullSentinel U]
      (conv : U → T) (s : NotNull U) (w : NotNull T) :
      Reachable s → NotNull.fromWrapper conv s = .ok w → Reachable w
  | copy {T : Type} [NullSentinel T] (s : NotNull T) :
      Reachable s → Reachable (NotNull.copyCtor s)
  | assignW {T : Type} [NullSentinel T] (tgt s : NotNull T) :
      Reachable s → Reachable (NotNull.assignFrom tgt s)

/-- One `shared_ptr` control block: reference count and stored object. -/
structure Cell (V : Type) where
  rc : Nat
  val : V
deriving DecidableEq

/-- First-match lookup in an association list of cells. -/
def lookupCell {V : Type} (a : Addr) : List (Addr × Cell V) → Option (Cell V)
  | [] => none
  | (b, c) :: rest => if a = b then some c else lookupCell a rest

/-- Update the first cell stored at `a` (no-op when absent). -/
def setCell {V : Type} (a : Addr) (f : Cell V → Cell V) :
    List (Addr × Cell V) → List (Addr × Cell V)
  | [] => []
  | (b, c) :: rest => if a = b then (b, f c) :: rest else (b, c) :: setCell a f rest

/-- Remove the first cell stored at `a` (no-op when absent). -/
def dropCell {V : Type} (a : Addr) :
    List (Addr × Cell V) → List (Addr × Cell V)
  | [] => []
  | (b, c) :: rest => if a = b then rest else (b, c) :: dropCell a rest

/-- The shared-ownership heap: reference-counted cells indexed by address. -/
structure Heap (V : Type) where
  cells : List (Addr × Cell V)
deriving DecidableEq

namespace Heap

variable {V : Type}

/-- Control block stored at `a`, if any. -/
def find (h : Heap V) (a : Addr) : Option (Cell V) :=
  lookupCell a h.cells

/-- Object value stored at `a`, if any (`*p` on a live handle). -/
def read (h : Heap V) (a : Addr) : Option V :=
  (h.find a).map Cell.val

/-- The object at `a` is alive: its storage has not been released. -/
def alive (h : Heap V) (a : Addr) : Bool :=
  (h.find a).isSome

/-- Addresses with allocated storage, in heap order. -/
def dom (h : Heap V) : List Addr :=
  h.cells.map Prod.fst

/-- Overwrite the object value at `a` (copy-assignment of the pointee). -/
def write (h : Heap V) (a : Addr) (v : V) : Heap V :=
  ⟨setCell a (fun c => ⟨c.rc, v⟩) h.cells⟩

/-- Copying a `shared_ptr` to `a`: one more share of the cell. -/
def incRef (h : Heap V) (a : Addr) : Heap V :=
  ⟨setCell a (fun c => ⟨c.rc + 1, c.val⟩) h.cells⟩

/-- Destroying a `shared_ptr` to `a`: one share fewer; releasing the last
share releases the storage. -/
def decRef (h : Heap V) (a : Addr) : Heap V :=
  match h.find a with
  | none => h
  | some c => if c.rc ≤ 1 then ⟨dropCell a h.cells⟩
              else ⟨setCell a (fun c => ⟨c.rc - 1, c.val⟩) h.cells⟩

/-- Fresh address for a `new` allocation: past every allocated address,
hence never 0 and never in `dom`. -/
def fresh (h : Heap V) : Addr :=
  (h.dom.foldr max 0) + 1

/-- `new X(v)` captured into shared storage: a fresh cell with one share. -/
def alloc (h : Heap V) (v : V) : Addr × Heap V :=
  (h.fresh, ⟨(h.fresh, ⟨1, v⟩) :: h.cells⟩)

end Heap

/-- `nnptr::sref<T>` (sref.hpp lines 242-350): a `NotNull`-protected
`shared_ptr`, modelled as a `NotNull` address into the shared heap. -/
structure sref (V : Type) where
  data_ : NotNull Addr
deriving DecidableEq

namespace sref

variable {V : Type}

/-- The address held by the wrapped `shared_ptr`. -/
def addr (s : sref V) : Addr :=
  s.data_.ptr_

/-- `sref(new X(v))`: heap allocation followed by the `sref(T* data)`
constructor (lines 285-287), which captures the raw pointer into
`shared_ptr` storage; the `NotNull` member then validates it. -/
def fromNew (v : V) (h : Heap V) : CResult (sref V × Heap V) :=
  let ah := h.alloc v
  if NullSentinel.isNull ah.1 then .terminated else .ok (⟨⟨ah.1⟩⟩, ah.2)

/-- `sref(std::shared_ptr<T>& data)` (lines 281-283): the handle is copied
into the `NotNull` member (one more share) and validated. -/
def fromShared (p : Addr) (h : Heap V) : CResult (sref V × Heap V) :=
  if NullSentinel.isNull p then .terminated else .ok (⟨⟨p⟩⟩, h.incRef p)

/-- Copy constructor `sref(const sref<T>& other) : data_{other.data_}`
(lines 273-275): the new wrapper holds a copy of the same handle (one more
share of the same cell); no allocation. -/
def copyCtor (other : sref V) (h : Heap V) : sref V × Heap V :=
  (⟨other.data_⟩, h.incRef other.addr)

/-- Move constructor `sref(const sref<T>&& corpse) : data_{corpse.data_}`
(lines 277-279): the parameter is a const reference, so the source cannot
be modified; the body is identical to the copy constructor's. -/
def moveCtor (corpse : sref V) (h : Heap V) : sref V × Heap V :=
  (⟨corpse.data_⟩, h.incRef corpse.addr)

/-- Destructor: the `NotNull` member destroys its `shared_ptr` (one share
fewer). -/
def destroy (s : sref V) (h : Heap V) : Heap V :=
  h.decRef s.addr

/-- Reading the pointee through `T& get()` / `operator*` / `operator T&`
(lines 296-318, 338-342): `*data_` is `NotNull::operator*`, i.e. a checked
`get()` of the handle followed by a `shared_ptr` dereference. -/
def getVal (s : sref V) (h : Heap V) : SResult V :=
  match s.data_.get_checked with
  | .terminated => .terminated
  | .ok p =>
    match h.read p with
    | some v => .ok v
    | none => .ub

/-- Writing `v` to the pointee through the reference returned by `get()` /
`operator*` / `operator T&`: same checked path, then the pointee's
copy-assignment. -/
def setVal (s : sref V) (v : V) (h : Heap V) : SResult (Heap V) :=
  match s.data_.get_checked with
  | .terminated => .terminated
  | .ok p =>
    if (h.read p).isSome then .ok (h.write p v) else .ub

/-- `operator=(const sref<T>& other)` (lines 326-336): if `this == &other`
(same wrapper identity, modelled by the object ids) nothing happens;
otherwise `(*this->data_) = (*other.data_)` copies the value of `other`'s
pointee into `this`'s pointee.  `this->data_` itself is never reassigned. -/
def assign (selfId otherId : Nat) (self other : sref V) (h : Heap V) :
    SResult (Heap V) :=
  if selfId = otherId then .ok h
  else
    match self.data_.get_checked, other.data_.get_checked with
    | .ok pa, .ok pb =>
      match h.read pa, h.read pb with
      | some _, some vb => .ok (h.write pa vb)
      | _, _ => .ub
    | _, _ => .terminated

/-- Conversion `operator sref<Y>()` (lines 344-349): `py = data_.get()`
copies the handle out of the `NotNull` (checked get, one more share);
`return py` runs the `sref(std::shared_ptr&)` constructor (another share,
re-validated) and then destroys the local `py` (one share back).  The
derived-to-base view change does not move or copy the object itself, so
the address is unchanged. -/
def convert (s : sref V) (h : Heap V) : CResult (sref V × Heap V) :=
  match s.data_.get_checked with
  | .terminated => .terminated
  | .ok p =>
    let h1 := h.incRef p
    if NullSentinel.isNull p then .terminated
    else .ok (⟨⟨p⟩⟩, (h1.incRef p).decRef p)

end sref

/-- Whether a member or operator is declared usable, declared deleted, or
not declared at all in the source. -/
inductive DeclStatus where
  | available : DeclStatus
  | deleted : DeclStatus
  | notDeclared : DeclStatus
deriving DecidableEq

/-- The members and operators of `NotNull`'s public contract named by the
spec's allowed/disallowed lists. -/
inductive NNOp where
  | defaultCtor
  | ctorFromConvertible
  | ctorFromT
  | ctorFromWrapper
  | copyCtorOp
  | copyAssign
  | getOp
  | convToT
  | ctorFromNullptr
  | assignFromNullptr
  | preIncrement
  | preDecrement
  | postIncrement
  | postDecrement
  | plusAssignPtrdiff
  | minusAssignPtrdiff
  | subscript
  | eqWrapper
  | neWrapper
  | ltWrapper
  | leWrapper
  | gtWrapper
  | geWrapper
  | eqNullptr
  | neNullptr
  | wrapperDifference
  | wrapperPlusPtrdiff
  | ptrdiffPlusWrapper
  | wrapperMinusPtrdiff
deriving DecidableEq

/-- Declaration table of `NotNull`, transcribed from sref.hpp: constructors
lines 85-110, deleted members lines 126-136, comparison operators lines
150-210 with the `nullptr_t` overloads deleted at 159-161 and 171-174,
deleted arithmetic at lines 213-224.  No default constructor is declared
(and user-declared constructors exist, so C++ generates none). -/
def notNullDecl : NNOp → DeclStatus
  | .defaultCtor => .notDeclared
  | .ctorFromConvertible => .available
  | .ctorFromT => .available
  | .ctorFromWrapper => .available
  | .copyCtorOp => .available
  | .copyAssign => .available
  | .getOp => .available
  | .convToT => .available
  | .ctorFromNullptr => .deleted
  | .assignFromNullptr => .deleted
  | .preIncrement => .deleted
  | .preDecrement => .deleted
  | .postIncrement => .deleted
  | .postDecrement => .deleted
  | .plusAssignPtrdiff => .deleted
  | .minusAssignPtrdiff => .deleted
  | .subscript => .deleted
  | .eqWrapper => .available
  | .neWrapper => .available
  | .ltWrapper => .available
  | .leWrapper => .available
  | .gtWrapper => .available
  | .geWrapper => .available
  | .eqNullptr => .deleted
  | .neNullptr => .deleted
  | .wrapperDifference => .deleted
  | .wrapperPlusPtrdiff => .deleted
  | .ptrdiffPlusWrapper => .deleted
  | .wrapperMinusPtrdiff => .deleted

/-- The constructors of `sref` named by the spec. -/
inductive SrefOp where
  | ctorFromValue
  | ctorFromConstRef
  | copyCtorOp
  | moveCtorOp
  | ctorFromSharedPtr
  | ctorFromRawPtr
  | ctorFromNullptr
deriving DecidableEq

/-- Declaration table of `sref`'s constructors, transcribed from sref.hpp
lines 252-290; `sref(std::nullptr_t)` is declared deleted at line 290. -/
def srefDecl : SrefOp → DeclStatus
  | .ctorFromValue => .available
  | .ctorFromConstRef => .available
  | .copyCtorOp => .available
  | .moveCtorOp => .available
  | .ctorFromSharedPtr => .available
  | .ctorFromRawPtr => .available
  | .ctorFromNullptr => .deleted

/-- An operation is rejected at compile time when its use cannot be
well-formed C++: it is declared deleted, or it is a default constructor
that is not declared while other user-declared constructors exist (so the
compiler generates none). -/
def rejectedAtCompileTime (decl : NNOp → DeclStatus) (op : NNOp) : Bool :=
  match decl op with
  | .deleted => true
  | .notDeclared => op = NNOp.defaultCtor && decl NNOp.ctorFromT = DeclStatus.available
  | .available => false

end Nnptr

namespace Nnptr

/-! ### Helper lemmas -/

theorem get_checked_of_nonnull {T : Type} [NullSentinel T] {n : NotNull T}
    (hn : NullSentinel.isNull n.ptr_ = false) :
    n.get_checked = CResult.ok n.ptr_ := by
  unfold NotNull.get_checked
  simp [hn]

theorem mk_checked_ok_nonnull {T : Type} [NullSentinel T] {u : T} {w : NotNull T}
    (h : NotNull.mk_checked u = CResult.ok w) :
    NullSentinel.isNull w.ptr_ = false := by
  unfold NotNull.mk_checked at h
  by_cases hn : NullSentinel.isNull u
  · simp [hn] at h
  · simp [hn] at h
    simp [← h, Bool.not_eq_true] at hn ⊢
    exact hn

theorem constructFrom_ok_nonnull {T U : Type} [NullSentinel T] [NullSentinel U]
    {conv : U → T} {u : U} {w : NotNull T}
    (h : NotNull.constructFrom conv u = CResult.ok w) :
    NullSentinel.isNull w.ptr_ = false := by
  unfold NotNull.constructFrom at h
  by_cases hn : NullSentinel.isNull (conv u)
  · simp [hn] at h
  · simp [hn] at h
    simp [← h, Bool.not_eq_true] at hn ⊢
    exact hn

theorem fromWrapper_ok_nonnull {T U : Type} [NullSentinel T] [NullSentinel U]
    {conv : U → T} {s : NotNull U} {w : NotNull T}
    (h : NotNull.fromWrapper conv s = CResult.ok w) :
    NullSentinel.isNull w.ptr_ = false := by
  unfold NotNull.fromWrapper at h
  cases hg : s.get_checked with
  | terminated => rw [hg] at h; exact absurd h (by simp)
  | ok u => rw [hg] at h; exact constructFrom_ok_nonnull h

theorem lookupCell_setCell_self {V : Type} (a : Addr) (f : Cell V → Cell V) :
    ∀ l : List (Addr × Cell V),
      lookupCell a (setCell a f l) = (lookupCell a l).map f
  | [] => rfl
  | (b, c) :: rest => by
    by_cases hab : a = b
    · simp [setCell, lookupCell, hab]
    · simp [setCell, lookupCell, hab, lookupCell_setCell_self a f rest]

theorem lookupCell_setCell_other {V : Type} {x a : Addr} (hx : x ≠ a)
    (f : Cell V → Cell V) :
    ∀ l : List (Addr × Cell V),
      lookupCell x (setCell a f l) = lookupCell x l
  | [] => rfl
  | (b, c) :: rest => by
    by_cases hab : a = b
    · subst hab
      simp [setCell, lookupCell, hx]
    · simp [setCell, lookupCell, hab, lookupCell_setCell_other hx f rest]

theorem map_fst_setCell {V : Type} (a : Addr) (f : Cell V → Cell V) :
    ∀ l : List (Addr × Cell V),
      (setCell a f l).map Prod.fst = l.map Prod.fst
  | [] => rfl
  | (b, c) :: rest => by
    by_cases hab : a = b
    · simp [setCell, hab]
    · simp [setCell, hab, map_fst_setCell a f rest]

namespace Heap

variable {V : Type}

theorem find_incRef_self (h : Heap V) (a : Addr) :
    (h.incRef a).find a = (h.find a).map fun c => ⟨c.rc + 1, c.val⟩ := by
  unfold incRef find
  exact lookupCell_setCell_self a _ h.cells

theorem find_write_self (h : Heap V) (a : Addr) (v : V) :
    (h.write a v).find a = (h.find a).map fun c => ⟨c.rc, v⟩ := by
  unfold write find
  exact lookupCell_setCell_self a _ h.cells

theorem read_incRef (h : Heap V) (a x : Addr) :
    (h.incRef a).read x = h.read x := by
  unfold read incRef find
  by_cases hax : x = a
  · subst hax
    rw [lookupCell_setCell_self]
    cases lookupCell x h.cells <;> rfl
  · rw [lookupCell_setCell_other hax]

theorem dom_incRef (h : Heap V) (a : Addr) :
    (h.incRef a).dom = h.dom := by
  unfold dom incRef
  exact map_fst_setCell a _ h.cells

theorem dom_write (h : Heap V) (a : Addr) (v : V) :
    (h.write a v).dom = h.dom := by
  unfold dom write
  exact map_fst_setCell a _ h.cells

theorem read_write_self (h : Heap V) (a : Addr) (v : V) :
    (h.write a v).read a = (h.read a).map fun _ => v := by
  unfold read write find
  rw [lookupCell_setCell_self]
  cases lookupCell a h.cells <;> rfl

theorem read_write_other (h : Heap V) {x a : Addr} (hx : x ≠ a) (v : V) :
    (h.write a v).read x = h.read x := by
  unfold read write find
  rw [lookupCell_setCell_other hx]

theorem read_write_of_read_eq (h : Heap V) {a : Addr} {v : V}
    (ha : h.read a = some v) (x : Addr) :
    (h.write a v).read x = h.read x := by
  by_cases hax : x = a
  · subst hax
    rw [read_write_self, ha]
    rfl
  · exact read_write_other h hax v

theorem decRef_of_rc_ge_two (h : Heap V) {a : Addr} {n : Nat} {w : V}
    (ha : h.find a = some ⟨n + 2, w⟩) :
    h.decRef a = ⟨setCell a (fun c => ⟨c.rc - 1, c.val⟩) h.cells⟩ := by
  unfold decRef
  rw [ha]
  simp

theorem find_decRef_of_rc_ge_two (h : Heap V) {a : Addr} {n : Nat} {w : V}
    (ha : h.find a = some ⟨n + 2, w⟩) :
    (h.decRef a).find a = some ⟨n + 1, w⟩ := by
  rw [decRef_of_rc_ge_two h ha]
  show lookupCell a (setCell a _ h.cells) = _
  rw [lookupCell_setCell_self]
  rw [show lookupCell a h.cells = some ⟨n + 2, w⟩ from ha]
  rfl

theorem dom_decRef_of_rc_ge_two (h : Heap V) {a : Addr} {n : Nat} {w : V}
    (ha : h.find a = some ⟨n + 2, w⟩) :
    (h.decRef a).dom = h.dom := by
  rw [decRef_of_rc_ge_two h ha]
  show (setCell a _ h.cells).map Prod.fst = _
  rw [map_fst_setCell]
  rfl

end Heap

/-! ### Claim theorems -/

/-- C1: In checked mode, every NotNull wrapper reachable through the public
contract (checked construction from a value, conversion from another
wrapper, copy construction, copy assignment) has a payload that does not
compare equal to the null sentinel: no operation of the public contract
produces an observably null or emptied wrapper. -/
theorem notNull_reachable_never_null {T : Type} [NullSentinel T]
    (w : NotNull T) (hw : Reachable w) :
    NullSentinel.isNull w.ptr_ = false := by
  induction hw with
  | mkOk u w h => exact mk_checked_ok_nonnull h
  | convOk conv u w h => exact constructFrom_ok_nonnull h
  | wrapOk conv s w hs h ih => exact fromWrapper_ok_nonnull h
  | copy s hs ih => exact ih
  | assignW tgt s hs ih => exact ih

theorem notNull_reachable_never_null_witness :
    NullSentinel.isNull (⟨5⟩ : NotNull Addr).ptr_ = false :=
  notNull_reachable_never_null ⟨5⟩ (Reachable.mkOk 5 ⟨5⟩ (by decide))

/-- C2: In checked mode, constructing a NotNull wrapper from a value that
compares equal to the null sentinel (through either non-deleted
constructor) terminates the process, and calling the read accessor when
the payload has become null terminates the process; the result type
`CResult` has no exception or error-code alternative, so no recovery or
propagation to a caller is possible. -/
theorem notNull_null_terminates {T U : Type} [NullSentinel T] [NullSentinel U]
    (u : T) (hu : NullSentinel.isNull u = true)
    (conv : U → T) (u2 : U) (hc : NullSentinel.isNull (conv u2) = true)
    (n : NotNull T) (hn : NullSentinel.isNull n.ptr_ = true) :
    NotNull.mk_checked u = CResult.terminated ∧
    NotNull.constructFrom conv u2 = CResult.terminated ∧
    n.get_checked = CResult.terminated := by
  refine ⟨?_, ?_, ?_⟩ <;>
    simp [NotNull.mk_checked, NotNull.constructFrom, NotNull.get_checked, hu, hc, hn]

theorem notNull_null_terminates_witness :
    NotNull.mk_checked (0 : Addr) = CResult.terminated :=
  (notNull_null_terminates 0 (by decide) id 0 (by decide) ⟨0⟩ (by decide)).1

/-- C3: For every pointer-like value that does not compare equal to the
null sentinel, checked construction succeeds (no termination) and yields a
wrapper whose read accessor returns that same value; the same holds for
the converting constructor, and the implicit conversion `operator T()`
returns exactly what the read accessor returns. -/
theorem notNull_nonnull_construct_get {T U : Type} [NullSentinel T] [NullSentinel U]
    (v : T) (hv : NullSentinel.isNull v = false)
    (conv : U → T) (u : U) (hcu : NullSentinel.isNull (conv u) = false) :
    NotNull.mk_checked v = CResult.ok ⟨v⟩ ∧
    NotNull.get_checked ⟨v⟩ = CResult.ok v ∧
    NotNull.opT (⟨v⟩ : NotNull T) = NotNull.get_checked ⟨v⟩ ∧
    NotNull.constructFrom conv u = CResult.ok ⟨conv u⟩ ∧
    NotNull.get_checked ⟨conv u⟩ = CResult.ok (conv u) := by
  refine ⟨?_, ?_, rfl, ?_, ?_⟩ <;>
    simp [NotNull.mk_checked, NotNull.get_checked, NotNull.constructFrom, hv, hcu]

theorem notNull_nonnull_construct_get_witness :
    NotNull.mk_checked (5 : Addr) = CResult.ok ⟨5⟩ :=
  (notNull_nonnull_construct_get 5 (by decide) id 7 (by decide)).1

/-- C7: Every operation the spec forbids on the NotNull wrapper — default
construction, construction or assignment from a null-sentinel literal,
equality or inequality comparison against a null-sentinel literal,
increment, decrement, offset by an integer in either direction,
subscripting, and difference of two wrappers — is rejected at compile
time in the transcribed declaration table (declared deleted, or not
declared while user-declared constructors exist so that C++ generates no
default constructor); likewise `sref`'s constructor from a null-sentinel
literal is declared deleted. -/
theorem notNull_compile_time_rejections :
    rejectedAtCompileTime notNullDecl NNOp.defaultCtor = true ∧
    rejectedAtCompileTime notNullDecl NNOp.ctorFromNullptr = true ∧
    rejectedAtCompileTime notNullDecl NNOp.assignFromNullptr = true ∧
    rejectedAtCompileTime notNullDecl NNOp.eqNullptr = true ∧
    rejectedAtCompileTime notNullDecl NNOp.neNullptr = true ∧
    rejectedAtCompileTime notNullDecl NNOp.preIncrement = true ∧
    rejectedAtCompileTime notNullDecl NNOp.preDecrement = true ∧
    rejectedAtCompileTime notNullDecl NNOp.postIncrement = true ∧
    rejectedAtCompileTime notNullDecl NNOp.postDecrement = true ∧
    rejectedAtCompileTime notNullDecl NNOp.plusAssignPtrdiff = true ∧
    rejectedAtCompileTime notNullDecl NNOp.minusAssignPtrdiff = true ∧
    rejectedAtCompileTime notNullDecl NNOp.wrapperPlusPtrdiff = true ∧
    rejectedAtCompileTime notNullDecl NNOp.ptrdiffPlusWrapper = true ∧
    rejectedAtCompileTime notNullDecl NNOp.wrapperMinusPtrdiff = true ∧
    rejectedAtCompileTime notNullDecl NNOp.subscript = true ∧
    rejectedAtCompileTime notNullDecl NNOp.wrapperDifference = true ∧
    srefDecl SrefOp.ctorFromNullptr = DeclStatus.deleted := by
  decide

/-- C8: For NotNull wrappers with non-null payloads (possibly of different
payload types), each of the six comparison operators returns exactly the
payload comparison applied to `lhs.get()` and `rhs.get()`: the wrappers
compare equal (unequal, less, at most, greater, at least) precisely when
their payloads do. -/
theorem notNull_comparisons_delegate {T U : Type} [NullSentinel T] [NullSentinel U]
    (l : NotNull T) (r : NotNull U)
    (hl : NullSentinel.isNull l.ptr_ = false)
    (hr : NullSentinel.isNull r.ptr_ = false)
    (opEq opNe opLt opLe opGt opGe : T → U → Bool) :
    l.get_checked = CResult.ok l.ptr_ ∧
    r.get_checked = CResult.ok r.ptr_ ∧
    NotNull.nnEq opEq l r = CResult.ok (opEq l.ptr_ r.ptr_) ∧
    NotNull.nnNe opNe l r = CResult.ok (opNe l.ptr_ r.ptr_) ∧
    NotNull.nnLt opLt l r = CResult.ok (opLt l.ptr_ r.ptr_) ∧
    NotNull.nnLe opLe l r = CResult.ok (opLe l.ptr_ r.ptr_) ∧
    NotNull.nnGt opGt l r = CResult.ok (opGt l.ptr_ r.ptr_) ∧
    NotNull.nnGe opGe l r = CResult.ok (opGe l.ptr_ r.ptr_) := by
  have hgl := get_checked_of_nonnull hl
  have hgr := get_checked_of_nonnull hr
  refine ⟨hgl, hgr, ?_, ?_, ?_, ?_, ?_, ?_⟩ <;>
    simp [NotNull.nnEq, NotNull.nnNe, NotNull.nnLt, NotNull.nnLe, NotNull.nnGt,
      NotNull.nnGe, hgl, hgr]

theorem notNull_comparisons_delegate_witness :
    NotNull.nnEq (fun a b => a == b) (⟨3⟩ : NotNull Addr) (⟨3⟩ : NotNull Addr) =
      CResult.ok ((3 : Addr) == 3) :=
  (notNull_comparisons_delegate ⟨3⟩ ⟨3⟩ (by decide) (by decide)
    (fun a b => a == b) (fun a b => a != b) (fun a b => decide (a < b))
    (fun a b => decide (a ≤ b)) (fun a b => decide (a > b))
    (fun a b => decide (a ≥ b))).2.2.1

/-- C4: Assigning shared reference `B` to shared reference `A` (distinct
wrapper identities, both live and non-null) copies the value of `B`'s
pointee into `A`'s pointee: the resulting heap is the original with only
`A`'s cell overwritten by `B`'s value, every other address is untouched,
no storage is allocated or released, and `A`'s wrapped pointer is not
rebound (the assignment never reassigns `data_`); self-assignment of the
same wrapper identity changes nothing. -/
theorem sref_assign_copies_value_through {V : Type} (h : Heap V) (ida idb : Nat)
    (A B : sref V) (va vb : V)
    (hid : ida ≠ idb)
    (hA : NullSentinel.isNull A.addr = false)
    (hB : NullSentinel.isNull B.addr = false)
    (ha : h.read A.addr = some va)
    (hb : h.read B.addr = some vb) :
    sref.assign ida idb A B h = SResult.ok (h.write A.addr vb) ∧
    (h.write A.addr vb).read A.addr = some vb ∧
    (∀ x, x ≠ A.addr → (h.write A.addr vb).read x = h.read x) ∧
    (h.write A.addr vb).dom = h.dom ∧
    (∀ idc : Nat, ∀ C : sref V, sref.assign idc idc C C h = SResult.ok h) := by
  have hga : A.data_.get_checked = CResult.ok A.data_.ptr_ := get_checked_of_nonnull hA
  have hgb : B.data_.get_checked = CResult.ok B.data_.ptr_ := get_checked_of_nonnull hB
  have ha' : h.read A.data_.ptr_ = some va := ha
  have hb' : h.read B.data_.ptr_ = some vb := hb
  refine ⟨?_, ?_, ?_, Heap.dom_write h A.addr vb, ?_⟩
  · simp [sref.assign, sref.addr, hid, hga, hgb, ha', hb']
  · rw [Heap.read_write_self, ha]
    rfl
  · intro x hx
    exact Heap.read_write_other h hx vb
  · intro idc C
    simp [sref.assign]

theorem sref_assign_copies_value_through_witness :
    sref.assign 7 8 (⟨⟨1⟩⟩ : sref Nat) ⟨⟨2⟩⟩ ⟨[(1, ⟨1, 10⟩), (2, ⟨1, 20⟩)]⟩ =
      SResult.ok (Heap.write ⟨[(1, ⟨1, 10⟩), (2, ⟨1, 20⟩)]⟩ 1 20) :=
  (sref_assign_copies_value_through ⟨[(1, ⟨1, 10⟩), (2, ⟨1, 20⟩)]⟩ 7 8 ⟨⟨1⟩⟩ ⟨⟨2⟩⟩
    10 20 (by decide) (by decide) (by decide) (by decide) (by decide)).1

/-- C5: Copy-constructing shared reference `B` from a live, non-null shared
reference `A` yields a wrapper holding the same handle (identical
underlying object), allocates nothing (the heap domain is unchanged), and
makes mutation through either reference observable through the other:
writing `v` through the copy and reading through `A` yields `v`, and
vice versa. -/
theorem sref_copy_shares_object {V : Type} (h : Heap V) (A : sref V) (w v : V)
    (hA : NullSentinel.isNull A.addr = false)
    (ha : h.read A.addr = some w) :
    (sref.copyCtor A h).1.data_ = A.data_ ∧
    (sref.copyCtor A h).2.dom = h.dom ∧
    sref.setVal (sref.copyCtor A h).1 v (sref.copyCtor A h).2 =
      SResult.ok ((sref.copyCtor A h).2.write A.addr v) ∧
    sref.getVal A ((sref.copyCtor A h).2.write A.addr v) = SResult.ok v ∧
    sref.setVal A v (sref.copyCtor A h).2 =
      SResult.ok ((sref.copyCtor A h).2.write A.addr v) ∧
    sref.getVal (sref.copyCtor A h).1 ((sref.copyCtor A h).2.write A.addr v) =
      SResult.ok v := by
  have hga : A.data_.get_checked = CResult.ok A.data_.ptr_ := get_checked_of_nonnull hA
  have ha' : h.read A.data_.ptr_ = some w := ha
  have hr1 : (h.incRef A.data_.ptr_).read A.data_.ptr_ = some w := by
    rw [Heap.read_incRef]
    exact ha'
  have hset : sref.setVal A v (h.incRef A.data_.ptr_) =
      SResult.ok ((h.incRef A.data_.ptr_).write A.data_.ptr_ v) := by
    simp [sref.setVal, hga, hr1]
  have hw : ((h.incRef A.data_.ptr_).write A.data_.ptr_ v).read A.data_.ptr_ = some v := by
    rw [Heap.read_write_self, Heap.read_incRef, ha']
    rfl
  have hget : sref.getVal A ((h.incRef A.data_.ptr_).write A.data_.ptr_ v) =
      SResult.ok v := by
    simp [sref.getVal, hga, hw]
  exact ⟨rfl, Heap.dom_incRef h A.addr, hset, hget, hset, hget⟩

theorem sref_copy_shares_object_witness :
    sref.getVal (⟨⟨1⟩⟩ : sref Nat)
      ((Heap.incRef ⟨[(1, ⟨1, 9⟩)]⟩ 1).write 1 42) = SResult.ok 42 :=
  (sref_copy_shares_object ⟨[(1, ⟨1, 9⟩)]⟩ ⟨⟨1⟩⟩ 9 42 (by decide) (by decide)).2.2.2.1

/-- C6: Converting a live, non-null shared reference (e.g. derived-typed)
into a shared reference of a convertible (base) type yields a reference to
the identical address, allocates nothing and creates no second ownership
domain (the same cell simply gains one share), and the object stays alive
after destroying either one of the two references, in either order, with
its value still readable. -/
theorem sref_convert_preserves_shared_ownership {V : Type} (h : Heap V)
    (s : sref V) (k : Nat) (w : V)
    (hs : NullSentinel.isNull s.addr = false)
    (hc : h.find s.addr = some ⟨k + 1, w⟩) :
    ∃ t h2, sref.convert s h = CResult.ok (t, h2) ∧
      t.addr = s.addr ∧
      h2.dom = h.dom ∧
      h2.find s.addr = some ⟨k + 2, w⟩ ∧
      (sref.destroy s h2).alive t.addr = true ∧
      (sref.destroy t h2).alive s.addr = true ∧
      (sref.destroy s h2).read t.addr = some w ∧
      (sref.destroy t h2).read s.addr = some w := by
  have hga : s.data_.get_checked = CResult.ok s.data_.ptr_ := get_checked_of_nonnull hs
  have hs' : NullSentinel.isNull s.data_.ptr_ = false := hs
  have hf1 : (h.incRef s.addr).find s.addr = some ⟨k + 2, w⟩ := by
    rw [Heap.find_incRef_self, hc]
    rfl
  have hf2 : ((h.incRef s.addr).incRef s.addr).find s.addr = some ⟨(k + 1) + 2, w⟩ := by
    rw [Heap.find_incRef_self, hf1]
    rfl
  have hfH2 : (((h.incRef s.addr).incRef s.addr).decRef s.addr).find s.addr =
      some ⟨k + 2, w⟩ :=
    Heap.find_decRef_of_rc_ge_two _ hf2
  have hdes : ((((h.incRef s.addr).incRef s.addr).decRef s.addr).decRef s.addr).find
      s.addr = some ⟨k + 1, w⟩ :=
    Heap.find_decRef_of_rc_ge_two _ hfH2
  refine ⟨⟨⟨s.addr⟩⟩, ((h.incRef s.addr).incRef s.addr).decRef s.addr,
    ?_, rfl, ?_, hfH2, ?_, ?_, ?_, ?_⟩
  · simp [sref.convert, sref.addr, hga, hs']
  · rw [Heap.dom_decRef_of_rc_ge_two _ hf2, Heap.dom_incRef, Heap.dom_incRef]
  · show (((((h.incRef s.addr).incRef s.addr).decRef s.addr).decRef s.addr).find
        s.addr).isSome = true
    rw [hdes]
    rfl
  · show (((((h.incRef s.addr).incRef s.addr).decRef s.addr).decRef s.addr).find
        s.addr).isSome = true
    rw [hdes]
    rfl
  · show (((((h.incRef s.addr).incRef s.addr).decRef s.addr).decRef s.addr).find
        s.addr).map Cell.val = some w
    rw [hdes]
    rfl
  · show (((((h.incRef s.addr).incRef s.addr).decRef s.addr).decRef s.addr).find
        s.addr).map Cell.val = some w
    rw [hdes]
    rfl

theorem sref_convert_preserves_shared_ownership_witness :
    ∃ t h2, sref.convert (⟨⟨1⟩⟩ : sref Nat) ⟨[(1, ⟨1, 5⟩)]⟩ = CResult.ok (t, h2) ∧
      t.addr = 1 ∧
      h2.dom = Heap.dom ⟨[(1, ⟨1, 5⟩)]⟩ ∧
      h2.find 1 = some ⟨2, 5⟩ ∧
      (sref.destroy ⟨⟨1⟩⟩ h2).alive t.addr = true ∧
      (sref.destroy t h2).alive 1 = true ∧
      (sref.destroy ⟨⟨1⟩⟩ h2).read t.addr = some 5 ∧
      (sref.destroy t h2).read 1 = some 5 :=
  sref_convert_preserves_shared_ownership ⟨[(1, ⟨1, 5⟩)]⟩ ⟨⟨1⟩⟩ 0 5
    (by decide) (by decide)

/-- C9: Move-constructing a shared reference is exactly copy construction:
the constructor bodies agree as functions on the heap, the new wrapper
holds the source's handle, the moved-from source (a const reference the
constructor cannot modify) reads exactly as before, and the new reference
reads exactly as the source does — the source is left valid and still
shares the same underlying object. -/
theorem sref_move_behaves_as_copy {V : Type} (s : sref V) (h : Heap V) :
    sref.moveCtor s h = sref.copyCtor s h ∧
    (sref.moveCtor s h).1.data_ = s.data_ ∧
    NullSentinel.isNull (sref.moveCtor s h).1.addr = NullSentinel.isNull s.addr ∧
    sref.getVal s (sref.moveCtor s h).2 = sref.getVal s h ∧
    sref.getVal (sref.moveCtor s h).1 (sref.moveCtor s h).2 =
      sref.getVal s (sref.moveCtor s h).2 := by
  refine ⟨rfl, rfl, rfl, ?_, rfl⟩
  show sref.getVal s (h.incRef s.addr) = sref.getVal s h
  unfold sref.getVal
  cases hg : s.data_.get_checked with
  | terminated => rfl
  | ok p => simp [Heap.read_incRef]

/-- C10: The self-assignment guard of shared-reference assignment compares
wrapper identity, not pointee identity: for two wrappers with distinct
identities that hold the same handle (same underlying object), assignment
is not skipped — it performs the value self-assignment of the pointee,
which leaves every readable value in the heap unchanged. -/
theorem sref_assign_guard_is_wrapper_identity {V : Type} (h : Heap V)
    (ida idb : Nat) (A B : sref V) (v : V)
    (hid : ida ≠ idb)
    (hshare : B = A)
    (hA : NullSentinel.isNull A.addr = false)
    (ha : h.read A.addr = some v) :
    sref.assign ida idb A B h = SResult.ok (h.write A.addr v) ∧
    (∀ x, (h.write A.addr v).read x = h.read x) := by
  subst hshare
  have hga : B.data_.get_checked = CResult.ok B.data_.ptr_ := get_checked_of_nonnull hA
  have ha' : h.read B.data_.ptr_ = some v := ha
  constructor
  · simp [sref.assign, sref.addr, hid, hga, ha']
  · exact Heap.read_write_of_read_eq h ha

theorem sref_assign_guard_is_wrapper_identity_witness :
    sref.assign 3 4 (⟨⟨1⟩⟩ : sref Nat) ⟨⟨1⟩⟩ ⟨[(1, ⟨2, 9⟩)]⟩ =
      SResult.ok (Heap.write ⟨[(1, ⟨2, 9⟩)]⟩ 1 9) :=
  (sref_assign_guard_is_wrapper_identity ⟨[(1, ⟨2, 9⟩)]⟩ 3 4 ⟨⟨1⟩⟩ ⟨⟨1⟩⟩ 9
    (by decide) rfl (by decide) (by decide)).1

end Nnptr
